import Mathlib

/-!
Verification development for the order-fulfillment and carrier-shipping
subsystem of an e-commerce backend (FastAPI + Firestore + Aras Kargo SOAP).

The Python sources are shallowly embedded: dictionaries with optional keys
become structures with `Option` fields, Python truthiness is made explicit
through the `pyTruthy*` helpers, `Decimal` arithmetic becomes exact rational
arithmetic with an explicit half-even quantization to two decimal places,
and the Firestore orders collection becomes an association list from document
id to document, processed in listing order.
-/

set_option autoImplicit false

namespace ICSApp

/-! ## Python truthiness and `or` chains -/

/-- Truthiness of a Python string: non-empty. -/
def pyTruthyS (s : String) : Bool := s ≠ ""

/-- Truthiness of an optional Python string (absent key or `None` is falsy,
the empty string is falsy). -/
def pyTruthyOS : Option String → Bool
  | none => false
  | some s => s ≠ ""

/-- Truthiness of an optional Python bool (absent key or `None` is falsy). -/
def pyTruthyOB : Option Bool → Bool
  | none => false
  | some b => b

/-- Python `a or b` on strings. -/
def pyOrS (a b : String) : String := if a ≠ "" then a else b

/-- Python `a or b` on optional strings. -/
def pyOrOS (a b : Option String) : Option String := if pyTruthyOS a then a else b

/-- Python `a or dflt` collapsing an optional string to a string. -/
def pyGetS (a : Option String) (dflt : String) : String :=
  match a with
  | none => dflt
  | some s => if s ≠ "" then s else dflt

/-- Python `str(...)` rendering of an optional string inside an f-string:
`None` renders as "None". -/
def pyStr (a : Option String) : String :=
  match a with
  | none => "None"
  | some s => s

/-- Character-list prefix test (kernel-computable). -/
def charPrefix : List Char → List Char → Bool
  | [], _ => true
  | _ :: _, [] => false
  | a :: as, b :: bs => a = b && charPrefix as bs

/-- Character-list substring test (kernel-computable). -/
def charContains (hay needle : List Char) : Bool :=
  match hay with
  | [] => charPrefix needle []
  | _ :: t => charPrefix needle hay || charContains t needle

/-- Substring test, modelling Python `needle in hay` / `hay.find(needle) != -1`. -/
def strContains (hay needle : String) : Bool :=
  charContains hay.data needle.data

/-- Python `str.startswith`. -/
def pyStartsWith (s pre : String) : Bool := charPrefix pre.data s.data

/-- Python slicing `s[:n]`. -/
def pyTake (s : String) (n : Nat) : String := String.mk (s.data.take n)

/-- Python `str.lower()` per character: ASCII letters and the single-character
Turkish case pairs.  (Python maps the dotted capital İ to a two-character
sequence; no claim depends on that letter, and it is mapped to the plain i
here.) -/
def pyLowerChar (c : Char) : Char :=
  if 'A' ≤ c ∧ c ≤ 'Z' then Char.ofNat (c.toNat + 32)
  else if c = 'Ç' then 'ç'
  else if c = 'Ğ' then 'ğ'
  else if c = 'İ' then 'i'
  else if c = 'Ö' then 'ö'
  else if c = 'Ş' then 'ş'
  else if c = 'Ü' then 'ü'
  else c

/-- Python `str.lower()`. -/
def pyLower (s : String) : String := String.mk (s.data.map pyLowerChar)

/-- Python `str.upper()` per character: ASCII letters and the single-character
Turkish case pairs (the dotless ı maps to I, the dotted i maps to I as in
locale-independent Python). -/
def pyUpperChar (c : Char) : Char :=
  if 'a' ≤ c ∧ c ≤ 'z' then Char.ofNat (c.toNat - 32)
  else if c = 'ç' then 'Ç'
  else if c = 'ğ' then 'Ğ'
  else if c = 'ı' then 'I'
  else if c = 'ö' then 'Ö'
  else if c = 'ş' then 'Ş'
  else if c = 'ü' then 'Ü'
  else c

/-- Python `str.upper()`. -/
def pyUpper (s : String) : String := String.mk (s.data.map pyUpperChar)

/-- Python `str.strip()`: remove leading and trailing whitespace. -/
def pyStrip (s : String) : String :=
  String.mk
    (((s.data.dropWhile Char.isWhitespace).reverse.dropWhile
        Char.isWhitespace).reverse)

/-! ## Decimal quantization

`Decimal.quantize(Decimal("0.01"))` and Python `round(x, 2)` both round to two
decimal places with ties going to the even digit.  We model money exactly as
rationals and quantization as `round2`.  Arithmetic on rationals is expressed
through `mkRat`-based operations (`qadd`, `qsub`, `qmul`, `qofInt`, `qsum`) so
that concrete runs evaluate inside the kernel; each is proved equal to the
corresponding standard operation on `ℚ`. -/

/-- Exact rational multiplication, kernel-computable. -/
def qmul (a b : ℚ) : ℚ := mkRat (a.num * b.num) (a.den * b.den)

/-- Exact rational addition, kernel-computable. -/
def qadd (a b : ℚ) : ℚ := mkRat (a.num * b.den + a.den * b.num) (a.den * b.den)

/-- Exact rational subtraction, kernel-computable. -/
def qsub (a b : ℚ) : ℚ := mkRat (a.num * b.den - a.den * b.num) (a.den * b.den)

/-- The rational value of an integer, kernel-computable. -/
def qofInt (n : ℤ) : ℚ := mkRat n 1

/-- Exact rational list sum, kernel-computable. -/
def qsum (l : List ℚ) : ℚ := l.foldr qadd 0

theorem qmul_eq (a b : ℚ) : qmul a b = a * b := by
  rw [qmul, Rat.mkRat_eq_div]
  push_cast
  rw [div_mul_div_comm ((a.num : ℚ)) _ ((b.num : ℚ)) _ |>.symm]
  rw [Rat.num_div_den, Rat.num_div_den]

theorem qadd_eq (a b : ℚ) : qadd a b = a + b := by
  rw [qadd, Rat.mkRat_eq_div]
  push_cast
  rw [div_add_div _ _ (by exact_mod_cast a.den_nz : ((a.den : ℚ)) ≠ 0)
    (by exact_mod_cast b.den_nz : ((b.den : ℚ)) ≠ 0) |>.symm]
  rw [Rat.num_div_den, Rat.num_div_den]

theorem qsub_eq (a b : ℚ) : qsub a b = a - b := by
  rw [qsub, Rat.mkRat_eq_div]
  push_cast
  rw [div_sub_div _ _ (by exact_mod_cast a.den_nz : ((a.den : ℚ)) ≠ 0)
    (by exact_mod_cast b.den_nz : ((b.den : ℚ)) ≠ 0) |>.symm]
  rw [Rat.num_div_den, Rat.num_div_den]

theorem qofInt_eq (n : ℤ) : qofInt n = (n : ℚ) := by
  rw [qofInt, Rat.mkRat_eq_div]
  norm_num

theorem qsum_eq (l : List ℚ) : qsum l = l.sum := by
  induction l with
  | nil => rfl
  | cons a t ih => rw [qsum, List.foldr_cons, List.sum_cons, qadd_eq]
                   rw [qsum] at ih
                   rw [ih]

/-- Round a rational to the nearest integer, ties to even
(the rounding used by `Decimal.quantize` and by Python `round`).  The floor is
computed as Euclidean division of numerator by (positive) denominator so that
the definition evaluates inside the kernel. -/
def roundHalfEvenZ (q : ℚ) : ℤ :=
  let d : ℤ := (q.den : ℤ)
  let f : ℤ := q.num.ediv d
  let rem : ℤ := q.num - f * d
  if 2 * rem < d then f
  else if d < 2 * rem then f + 1
  else if f % 2 = 0 then f else f + 1

/-- Round a rational to two decimal places, ties to even. -/
def round2 (q : ℚ) : ℚ := mkRat (roundHalfEvenZ (qmul q 100)) 100

/-- A rational that is a whole number of cents (two decimal places). -/
def IsCent (q : ℚ) : Prop := ∃ n : ℤ, q = (n : ℚ) / 100

theorem round2_as_div (q : ℚ) :
    round2 q = (roundHalfEvenZ (q * 100) : ℚ) / 100 := by
  rw [round2, qmul_eq, Rat.mkRat_eq_div]
  norm_num

theorem roundHalfEvenZ_intCast (n : ℤ) : roundHalfEvenZ (n : ℚ) = n := by
  unfold roundHalfEvenZ
  rw [Rat.num_intCast, Rat.den_intCast]
  have h1 : n.ediv (1 : ℤ) = n := Int.ediv_one n
  simp only [Nat.cast_one, h1, mul_one, sub_self, mul_zero]
  norm_num

theorem round2_isCent (q : ℚ) : IsCent (round2 q) :=
  ⟨roundHalfEvenZ (q * 100), round2_as_div q⟩

theorem round2_eq_self_of_isCent {q : ℚ} (h : IsCent q) : round2 q = q := by
  obtain ⟨n, rfl⟩ := h
  rw [round2_as_div]
  have h100 : ((n : ℚ) / 100) * 100 = (n : ℚ) := by
    field_simp
  rw [h100, roundHalfEvenZ_intCast]

theorem IsCent.add {a b : ℚ} (ha : IsCent a) (hb : IsCent b) : IsCent (a + b) := by
  obtain ⟨m, rfl⟩ := ha
  obtain ⟨n, rfl⟩ := hb
  exact ⟨m + n, by push_cast; ring⟩

theorem IsCent.zero : IsCent 0 := ⟨0, by norm_num⟩

theorem isCent_sum {l : List ℚ} (h : ∀ q ∈ l, IsCent q) : IsCent l.sum := by
  induction l with
  | nil => simpa using IsCent.zero
  | cons a t ih =>
      rw [List.sum_cons]
      exact (h a (List.mem_cons_self a t)).add (ih fun q hq => h q (List.mem_cons_of_mem a hq))

/-! ## Line items (`app/services/orders_helpers.py`)

`coerce_item` takes a raw cart / payload line (a Python dict or pydantic model,
modelled as a record of optional keys) and produces the canonical item dict
whose keys are all present. -/

/-- A free-form product snapshot attached by `enrich_items_from_products`
(the `attributes`/`specs` blob is opaque to the claims and kept as a string). -/
structure ProductSnapshot where
  title : Option String
  slug : Option String
  brand : Option String
  category : Option String
  attributes : Option String
  images : Option (List String)
  deriving DecidableEq, Repr

/-- A catalog entry found by the collection-group query in
`enrich_items_from_products`. -/
structure ProductData where
  title : Option String
  name : Option String
  slug : Option String
  brand : Option String
  category : Option String
  sku : Option String
  image_url : Option String
  images : Option (List String)
  attributes : Option String
  specs : Option String
  deriving DecidableEq, Repr

/-- A raw line item as it arrives from the cart document or the request
payload: every key may be absent.  Monetary amounts are exact decimals
(`Decimal(str(...))` in the source), quantities integers. -/
structure RawItem where
  product_id : Option String
  id : Option String
  title : Option String
  name : Option String
  product_name : Option String
  sku : Option String
  variant_id : Option String
  quantity : Option Int
  unit_price : Option ℚ
  price : Option ℚ
  currency : Option String
  image_url : Option String
  options : Option (List (String × String))
  deriving DecidableEq, Repr

/-- The coerced line item produced by `coerce_item`: all keys present,
`name`/`price`/`total` aliased to `title`/`unit_price`/`line_total`.
The `product` snapshot key is absent (`none`) until enrichment adds it. -/
structure OrderItemC where
  product_id : Option String
  title : String
  name : String
  sku : Option String
  variant_id : Option String
  quantity : Int
  unit_price : ℚ
  price : ℚ
  currency : String
  image_url : Option String
  options : List (String × String)
  line_total : ℚ
  total : ℚ
  product : Option ProductSnapshot
  deriving DecidableEq, Repr

/-- Port of `coerce_item` (orders_helpers.py).  `qty = max(1, int(...))`,
`price_dec = Decimal(str(d.get("unit_price", d.get("price", 0))))` (key
presence, not truthiness), `line_total = (price_dec * qty).quantize("0.01")`,
`currency = (d.get("currency") or "TRY").upper()`,
`title = d.get("title") or d.get("name") or d.get("product_name") or "Ürün"`. -/
def coerce_item (d : RawItem) : OrderItemC :=
  let qty : Int := max 1 (d.quantity.getD 1)
  let price_dec : ℚ := match d.unit_price with
    | some p => p
    | none => d.price.getD 0
  let line_total : ℚ := round2 (qmul price_dec (qofInt qty))
  let currency : String := pyUpper (pyGetS d.currency "TRY")
  let title : String := pyGetS (pyOrOS d.title (pyOrOS d.name d.product_name)) "Ürün"
  { product_id := pyOrOS d.product_id d.id
    title := title
    name := title
    sku := d.sku
    variant_id := d.variant_id
    quantity := qty
    unit_price := price_dec
    price := price_dec
    currency := currency
    image_url := d.image_url
    options := d.options.getD []
    line_total := line_total
    total := line_total
    product := none }

/-- The totals dict computed by `calc_totals`. -/
structure Totals where
  item_count : Int
  subtotal : ℚ
  discount : ℚ
  shipping : ℚ
  tax : ℚ
  grand_total : ℚ
  currency : String
  deriving DecidableEq, Repr

/-- Port of `calc_totals` (orders_helpers.py): exact decimal sums, zero
discount/shipping/tax, and `grand_total = (subtotal - discount + shipping
+ tax).quantize("0.01")`. -/
def calc_totals (items : List OrderItemC) (currency : String) : Totals :=
  let subtotal : ℚ := qsum (items.map (fun it => it.line_total))
  let discount : ℚ := 0
  let shipping : ℚ := 0
  let tax : ℚ := 0
  { item_count := (items.map (fun it => it.quantity)).sum
    subtotal := subtotal
    discount := discount
    shipping := shipping
    tax := tax
    grand_total := round2 (qadd (qadd (qsub subtotal discount) shipping) tax)
    currency := pyUpper currency }

/-! ## Carrier gateway (`app/integrations/shipping_provider.py`)

`create_shipment_with_setorder` POSTs a SetOrder SOAP envelope and parses the
response.  The XML envelope it sends does not influence the returned triple, so
it is not modelled; the transport outcome and the parsed response fields are.
An XML element is `Option (Option String)`: `none` = element absent,
`some none` = element present with no text, `some (some s)` = text `s`. -/

/-- The relevant application settings (config.py).  `ARAS_WEBHOOK_SECRET`
defaults to the empty string when the environment variable is unset. -/
structure Settings where
  ARAS_USERNAME : String
  ARAS_PASSWORD : String
  ARAS_ENV : String
  ARAS_WEBHOOK_SECRET : String
  deriving DecidableEq, Repr

/-- Parsed fields of a SetOrder SOAP response body. -/
structure SetOrderResp where
  resultCode : Option (Option String)
  resultMessage : Option (Option String)
  invoiceKey : Option (Option String)
  barcodeNumber : Option (Option String)
  deriving DecidableEq, Repr

/-- Outcome of the HTTP POST performed by the gateway. -/
inductive Transport where
  /-- `requests.post` raised (timeout, connection error, ...). -/
  | exn (e : String)
  /-- Response with a non-200 status code and its body text. -/
  | http (code : Nat) (body : String)
  /-- 200 response whose body failed XML parsing. -/
  | parseFail (e : String)
  /-- 200 response parsed into the fields of interest. -/
  | parsed (resp : SetOrderResp)
  deriving DecidableEq, Repr

/-- Element text if the element is present, else `None`
(`el.text if el is not None else None`). -/
def elemText (el : Option (Option String)) : Option String := el.bind id

/-- Port of `create_shipment_with_setorder` (shipping_provider.py).
`fresh` stands for the `uuid.uuid4()` drawn when no integration code is
supplied.  Returns `(success, tracking_number, message)`. -/
def create_shipment_with_setorder (st : Settings) (fresh : String)
    (integration_code : Option String) (tr : Transport) :
    Bool × Option String × String :=
  if st.ARAS_USERNAME = "" ∨ st.ARAS_PASSWORD = "" then
    (false, none, "ARAS kimlik bilgileri (.env) eksik.")
  else
    let integ_code : String := pyGetS integration_code fresh
    match tr with
    | .exn e => (false, none, "Aras bağlantı hatası: " ++ e)
    | .http code body => (false, none, "Aras HTTP " ++ toString code ++ ": " ++ pyTake body 200)
    | .parseFail e => (false, none, "Aras yanıt parse hatası: " ++ e)
    | .parsed resp =>
      match resp.resultCode with
      | none => (false, none, "Aras yanıtı beklenen formatta değil.")
      | some rcText =>
        if rcText ≠ some "0" then
          let msg : String := match resp.resultMessage with
            | none => "Bilinmeyen hata"
            | some none => "None"   -- f-string renders a None text as "None"
            | some (some m) => m
          (false, none, "Aras SetOrder hata: " ++ msg)
        else
          let tracking : Option String :=
            pyOrOS (elemText resp.invoiceKey) (elemText resp.barcodeNumber)
          let tracking : String := pyGetS tracking integ_code
          (true, some tracking, "Gönderi oluşturuldu.")

/-- The quadruple returned by `get_status_with_integration_code`:
`(ok, status_text, delivered, tracking_number_or_none)`.  The synchronizer and
the per-order sync endpoints consume it; the claims quantify over its values,
so the carrier is modelled as a function from integration code to quadruple. -/
abbrev StatusQuad := Bool × Option String × Bool × Option String

/-- Port of `_map_aras_status` (orders_helpers.py), the classifier used by the
per-order sync endpoints.  Keyword checks happen on the lowercased text. -/
def map_aras_status (status_text : Option String) : String :=
  let t := pyLower (pyGetS status_text "")
  if strContains t "teslim" then "Teslim Edildi"
  else if strContains t "dağıtım" then "Dağıtımda"
  else if strContains t "kabul" ∨ strContains t "transfer" ∨ strContains t "yolda"
        ∨ strContains t "şube" ∨ strContains t "hub" then "Kargoya Verildi"
  else "Hazırlanıyor"

/-- Port of `_map_status` (shipping_webhooks.py), the webhook classifier.
Its default differs from the poller classifier: unknown text maps to
"Kargoya Verildi". -/
def map_webhook_status (ar : String) : String :=
  let t := pyLower ar
  if strContains t "teslim" then "Teslim Edildi"
  else if strContains t "dağıtım" then "Dağıtımda"
  else if strContains t "yolda" ∨ strContains t "transfer" then "Yolda"
  else "Kargoya Verildi"

/-! ## Order documents and the orders collection

`build_order_doc` writes the document below.  Note that it stores the
simulated flag and the tracking number only under the nested `shipment` map:
the top-level `_simulated` and `tracking_number` keys checked by the per-order
sync guard are never written at creation; patches (webhook, sync) later create
the top-level `tracking_number` and `_last_aras_status` keys. -/

/-- The address snapshot / address book entry (free-form dict with optional
keys; `user_id` appears on root-collection address documents, the flag fields
on address-book entries). -/
structure Addr where
  label : Option String
  name : Option String
  city : Option String
  district : Option String
  neighborhood : Option String
  street : Option String
  buildingNo : Option String
  floor : Option String
  apartment : Option String
  zipCode : Option String
  note : Option String
  phone : Option String
  user_id : Option String
  is_active : Option Bool
  isDefault : Option Bool
  is_default : Option Bool
  selected : Option Bool
  deriving DecidableEq, Repr

/-- Python dict truthiness for an address: at least one key present. -/
def Addr.nonEmpty (a : Addr) : Bool :=
  a.label.isSome ∨ a.name.isSome ∨ a.city.isSome ∨ a.district.isSome ∨
  a.neighborhood.isSome ∨ a.street.isSome ∨ a.buildingNo.isSome ∨
  a.floor.isSome ∨ a.apartment.isSome ∨ a.zipCode.isSome ∨ a.note.isSome ∨
  a.phone.isSome ∨ a.user_id.isSome ∨ a.is_active.isSome ∨
  a.isDefault.isSome ∨ a.is_default.isSome ∨ a.selected.isSome

/-- The nested `shipment` map of an order document. -/
structure Shipment where
  provider : String
  tracking_number : Option String
  status : String
  simulated : Bool
  log : String
  deriving DecidableEq, Repr

/-- A persisted order document.  Optional fields model keys that may be absent
from the Firestore document: `build_order_doc` never writes the top-level
`tracking_number`, `_last_aras_status`, `_simulated` or `shipping_provider`
keys, and writes `_checkout_id` only when a truthy checkout id was supplied. -/
structure OrderDoc where
  user_id : String
  status : String
  integration_code : String
  address : Addr
  items : List OrderItemC
  totals : Totals
  shipment : Shipment
  note : Option String
  created_at : Nat
  updated_at : Nat
  log : String
  checkout_id : Option String
  tracking_number : Option String
  last_aras_status : Option String
  simulated_flag : Option Bool
  shipping_provider : Option String
  deriving DecidableEq, Repr

/-- The orders collection: document id paired with document, in listing
order. -/
abbrev Store := List (String × OrderDoc)

/-- `db.collection("orders").document(id).get()`. -/
def storeGet (s : Store) (id : String) : Option OrderDoc :=
  (s.find? (fun e => e.1 = id)).map (fun e => e.2)

/-- `db.collection("orders").document(id).set(doc)`: replace or append. -/
def storeSet (s : Store) (id : String) (d : OrderDoc) : Store :=
  if s.any (fun e => e.1 = id) then
    s.map (fun e => if e.1 = id then (id, d) else e)
  else
    s ++ [(id, d)]

theorem find?_map_overwrite (id : String) (d : OrderDoc) (s : Store)
    (h : s.any (fun e => e.1 = id) = true) :
    (s.map (fun e => if e.1 = id then (id, d) else e)).find?
      (fun e => decide (e.1 = id)) = some (id, d) := by
  induction s with
  | nil => simp at h
  | cons a t ih =>
      by_cases ha : a.1 = id
      · simp [ha, List.find?_cons]
      · have h2 : t.any (fun e => e.1 = id) = true := by
          simpa [List.any_cons, ha] using h
        simp [List.find?_cons, ha, ih h2]

theorem find?_append_fresh (id : String) (d : OrderDoc) (s : Store)
    (h : s.any (fun e => e.1 = id) = false) :
    (s ++ [(id, d)]).find? (fun e => decide (e.1 = id)) = some (id, d) := by
  induction s with
  | nil => simp
  | cons a t ih =>
      have ha : ¬ a.1 = id := by
        intro hh
        simp [List.any_cons, hh] at h
      have h2 : t.any (fun e => e.1 = id) = false := by
        simpa [List.any_cons, ha] using h
      simp [List.find?_cons, ha, ih h2]

theorem storeGet_storeSet (s : Store) (id : String) (d : OrderDoc) :
    storeGet (storeSet s id d) id = some d := by
  unfold storeGet storeSet
  by_cases h : s.any (fun e => e.1 = id) = true
  · rw [if_pos h, find?_map_overwrite id d s h]
    rfl
  · rw [if_neg h, find?_append_fresh id d s (Bool.of_not_eq_true h)]
    rfl

theorem storeSet_length (s : Store) (id : String) (d : OrderDoc) :
    (storeSet s id d).length = if s.any (fun e => e.1 = id) then s.length else s.length + 1 := by
  unfold storeSet
  by_cases h : s.any (fun e => e.1 = id) = true <;> simp [h]

/-! ## Principals and extraction helpers -/

/-- The authenticated principal, modelled as the dict shape consumed by
`extract_uid` / `_extract_uid` / `resolve_active_address`: identity keys,
directly embedded address objects, address-id references, and the role used
by the authorization checks.  The nested `user` sub-object fallback of
`_extract_uid` is not modelled (no claim involves a principal whose only
identity lives there). -/
structure Principal where
  uid : Option String
  id : Option String
  user_id : Option String
  sub : Option String
  role : Option String
  name : Option String
  phone : Option String
  active_address : Option Addr
  address : Option Addr
  shipping_address : Option Addr
  active_address_id : Option String
  selected_address_id : Option String
  default_address_id : Option String
  address_id : Option String
  deriving DecidableEq, Repr

/-- Port of `extract_uid` (orders_helpers.py): first truthy value among the
`uid`/`id`/`user_id`/`sub` keys (the `userId` alias and the embedded-claims
fallback are collapsed into these fields). -/
def extract_uid (p : Principal) : Option String :=
  if pyTruthyOS p.uid then p.uid
  else if pyTruthyOS p.id then p.id
  else if pyTruthyOS p.user_id then p.user_id
  else if pyTruthyOS p.sub then p.sub
  else none

/-- Port of `_extract_uid` (orders_helpers.py), used by the per-order
endpoints; it probes `id` before `uid`. -/
def extract_uid_u (p : Principal) : Option String :=
  if pyTruthyOS p.id then p.id
  else if pyTruthyOS p.uid then p.uid
  else if pyTruthyOS p.user_id then p.user_id
  else if pyTruthyOS p.sub then p.sub
  else none

/-- The role lookup of the per-order endpoints:
`getattr(principal, "role", None) or (... or ...).get("role", "user")`. -/
def principal_role (p : Principal) : String := pyGetS p.role "user"

/-! ## `_order_doc_to_out` (orders_helpers.py) -/

/-- Effect of `_normalize_items` on a record in the coerced shape.  Because
`coerce_item` writes every key, all `setdefault` calls are no-ops; the
effective mutations are the quantity clamp and re-deriving a falsy
`product_id` from the absent `id`/`productId` keys (which yields `None`). -/
def normalize_item (it : OrderItemC) : OrderItemC :=
  { it with
    quantity := max 1 it.quantity
    product_id := if pyTruthyOS it.product_id then it.product_id else none }

/-- The dict produced by `_order_doc_to_out` (the OrderOut response shape). -/
structure OrderOutD where
  id : String
  user_id : String
  status : String
  shipping_provider : Option String
  tracking_number : Option String
  integration_code : String
  address : Addr
  items : List OrderItemC
  totals : Totals
  shipment : Shipment
  note : Option String
  created_at : Nat
  updated_at : Nat
  checkout_id : Option String
  log : String
  deriving DecidableEq, Repr

/-- Port of `_order_doc_to_out` / `order_doc_to_out` / `_doc_to_out`:
top-level values win over the nested shipment map by Python `or`. -/
def order_doc_to_out (docId : String) (d : OrderDoc) : OrderOutD :=
  { id := pyOrS d.integration_code docId
    user_id := d.user_id
    status := pyOrS d.status "Hazırlanıyor"
    shipping_provider := pyOrOS d.shipping_provider (some d.shipment.provider)
    tracking_number := pyOrOS d.tracking_number d.shipment.tracking_number
    integration_code := d.integration_code
    address := d.address
    items := d.items.map normalize_item
    totals := d.totals
    shipment := d.shipment
    note := d.note
    created_at := d.created_at
    updated_at := d.updated_at
    checkout_id := d.checkout_id
    log := d.log }

/-! ## Errors raised by the endpoints -/

/-- An error escaping an endpoint: either an explicit `HTTPException` or an
uncaught Python exception (rendered as a 500 by the framework). -/
inductive PyError where
  | httpExc (code : Nat) (detail : String)
  | typeError (msg : String)
  deriving DecidableEq, Repr

/-- Whether an endpoint result is a success. -/
def exceptOk2 : Except PyError OrderOutD → Bool
  | .ok _ => true
  | .error _ => false

/-! ## Webhook Ingestor (`app/routers/shipping_webhooks.py`) -/

/-- The JSON payload of `POST /shipping/aras`. -/
structure WebhookPayload where
  secret : Option String
  integration_code : Option String
  order_id : Option String
  status : Option String
  message : Option String
  tracking_number : Option String
  deriving DecidableEq, Repr

/-- Port of `aras_webhook`.  Shared-secret check, identifier lookup by the
`integration_code` field, unconditional status patch via the webhook
classifier.  Returns the JSON body `ok` on success together with the updated
collection. -/
def aras_webhook (st : Settings) (s : Store) (payload : WebhookPayload)
    (now : Nat) : Except PyError Unit × Store :=
  if pyTruthyS st.ARAS_WEBHOOK_SECRET ∧ payload.secret ≠ some st.ARAS_WEBHOOK_SECRET then
    (.error (.httpExc 401 "invalid secret"), s)
  else
    match pyOrOS payload.integration_code payload.order_id with
    | none => (.error (.httpExc 400 "integration_code missing"), s)
    | some integ =>
      if integ = "" then (.error (.httpExc 400 "integration_code missing"), s)
      else
        let status_text : String := pyGetS (pyOrOS payload.status payload.message) ""
        let track : Option String := payload.tracking_number
        let new_status : String := map_webhook_status status_text
        match s.find? (fun e => e.2.integration_code = integ) with
        | none => (.error (.httpExc 404 "order not found"), s)
        | some e =>
          let patched : OrderDoc :=
            { e.2 with
              status := new_status
              last_aras_status := some status_text
              updated_at := now
              tracking_number := if pyTruthyOS track then track else e.2.tracking_number }
          (.ok (), storeSet s e.1 patched)

/-! ## Status Synchronizer (`app/services/orders_sync.py`) -/

/-- `OPEN_STATUSES` from orders_sync.py. -/
def OPEN_STATUSES : List String :=
  ["Sipariş Alındı", "Kargoya Verildi", "Yolda", "Dağıtımda"]

/-- Processing of a single streamed document by `sync_open_orders_once`:
returns the (possibly) patched document and whether an update was written. -/
def sync_entry (carrier : String → StatusQuad) (now : Nat) (d : OrderDoc) :
    OrderDoc × Bool :=
  let integ := d.integration_code
  if integ = "" then (d, false)
  else
    match carrier integ with
    | (ok, status_text, delivered, new_track) =>
      if ok = false then (d, false)
      else
        let d1 := { d with last_aras_status := status_text, updated_at := now }
        let d2 := if delivered then { d1 with status := "Teslim Edildi" } else d1
        let d3 := if pyTruthyOS new_track ∧ new_track ≠ d.tracking_number then
            { d2 with tracking_number := new_track }
          else d2
        (d3, true)

/-- Port of `sync_open_orders_once`: stream the orders whose status is in
`OPEN_STATUSES` (selection is evaluated against the pre-run snapshot) and
patch each one from the carrier answer; a failed query skips that order.
Returns the number of updated records and the resulting collection. -/
def sync_open_orders_once (carrier : String → StatusQuad) (s : Store)
    (now : Nat) : Nat × Store :=
  let step := fun (e : String × OrderDoc) =>
    if e.2.status ∈ OPEN_STATUSES then
      let r := sync_entry carrier now e.2
      ((e.1, r.1), if r.2 then 1 else 0)
    else ((e.1, e.2), 0)
  ((s.map (fun e => (step e).2)).sum, s.map (fun e => (step e).1))

/-! ## Admin mark-shipped (`app/routers/orders.py`) -/

/-- Port of `admin_mark_shipped`: terminal statuses are returned untouched;
any other status that is not already exactly "Kargoya Verildi" is overwritten
with "Kargoya Verildi". -/
def admin_mark_shipped (s : Store) (order_id : String) (now : Nat) :
    Except PyError OrderOutD × Store :=
  match storeGet s order_id with
  | none => (.error (.httpExc 404 "Sipariş bulunamadı."), s)
  | some d =>
    let current := pyStrip (pyOrS d.status "")
    if current = "Teslim Edildi" ∨ current = "İptal" then
      (.ok (order_doc_to_out order_id d), s)
    else if current ≠ "Kargoya Verildi" then
      let patched := { d with status := "Kargoya Verildi", updated_at := now }
      (.ok (order_doc_to_out order_id patched), storeSet s order_id patched)
    else
      (.ok (order_doc_to_out order_id d), s)

/-! ## Per-order sync endpoint (`app/routers/orders.py`) -/

/-- Port of `sync_status_from_aras` (`POST /orders/id/sync-status`).  The
simulated-order guard keys on the top-level `_simulated` and
`tracking_number` fields.  A carrier `delivered` flag forces
"Teslim Edildi" regardless of the text classifier. -/
def sync_status_from_aras (carrier : String → StatusQuad) (s : Store)
    (p : Principal) (order_id : String) (now : Nat) :
    Except PyError OrderOutD × Store :=
  match storeGet s order_id with
  | none => (.error (.httpExc 404 "Sipariş bulunamadı."), s)
  | some d =>
    let uid := extract_uid_u p
    let role := principal_role p
    if uid ≠ some d.user_id ∧ role ≠ "admin" then
      (.error (.httpExc 403 "Yetki yok."), s)
    else if pyTruthyOB d.simulated_flag ∨ pyStartsWith (pyGetS d.tracking_number "") "FAKE-" then
      (.ok (order_doc_to_out order_id d), s)
    else if d.integration_code = "" then
      (.error (.httpExc 400 "Sipariş entegrasyon kodu yok."), s)
    else
      match carrier d.integration_code with
      | (ok, status_text, delivered, new_track) =>
        if ok = false then
          (.error (.httpExc 502 ("Aras sorgu hatası: " ++ pyStr status_text)), s)
        else
          let new_status := if delivered then "Teslim Edildi" else map_aras_status status_text
          let d1 := { d with status := new_status, updated_at := now }
          let d2 := if pyTruthyOS new_track ∧ new_track ≠ d.tracking_number then
              { d1 with tracking_number := new_track }
            else d1
          let d3 := if pyTruthyOS status_text then
              { d2 with last_aras_status := status_text }
            else d2
          (.ok (order_doc_to_out order_id d3), storeSet s order_id d3)

/-! ## User, cart and address storage -/

/-- The `cart` embedded map of a user document. -/
structure CartField where
  items : Option (List RawItem)
  deriving DecidableEq, Repr

/-- A `users/uid` document, restricted to the keys read by the resolvers. -/
structure UserDoc where
  active_address_id : Option String
  selected_address_id : Option String
  default_address_id : Option String
  address_id : Option String
  active_address : Option Addr
  addresses : Option (List Addr)
  cart : Option CartField
  deriving DecidableEq, Repr

/-- The user document with no keys (`to_dict() or {}` when absent). -/
def emptyUserDoc : UserDoc :=
  { active_address_id := none, selected_address_id := none,
    default_address_id := none, address_id := none, active_address := none,
    addresses := none, cart := none }

/-- A `carts/uid` document. -/
structure CartDoc where
  items : Option (List RawItem)
  deriving DecidableEq, Repr

/-- The Firestore collections touched by order creation and reconciliation.
Sub-collections are functions from the owning document id to the listed
documents, in listing order. -/
structure DB where
  users : List (String × UserDoc)
  userAddrs : String → List (String × Addr)
  rootAddrs : List (String × Addr)
  carts : List (String × CartDoc)
  cartItemsSub : String → List RawItem
  orders : Store
  catalog : String → Option ProductData

/-- `db.collection("users").document(uid).get()` collapsed to the dict
(`to_dict() or {} if exists else {}`). -/
def DB.userData (dbS : DB) (uid : String) : UserDoc :=
  ((dbS.users.find? (fun e => e.1 = uid)).map (fun e => e.2)).getD emptyUserDoc

/-- Port of `resolve_active_address` (orders_helpers.py).  The fallback chain
returns the first truthy candidate; none of the branches validates that the
candidate carries a city. -/
def resolve_active_address (dbS : DB) (p : Principal) : Option Addr :=
  match extract_uid p with
  | none => none
  | some uid =>
    -- 1) address objects embedded on the principal, first truthy key wins
    if pyTruthyOB (p.active_address.map Addr.nonEmpty) then p.active_address
    else if pyTruthyOB (p.address.map Addr.nonEmpty) then p.address
    else if pyTruthyOB (p.shipping_address.map Addr.nonEmpty) then p.shipping_address
    else
      -- 2) an address-id reference from the principal or the user document
      let addr_id_p := pyOrOS p.active_address_id
        (pyOrOS p.selected_address_id (pyOrOS p.default_address_id p.address_id))
      let u := dbS.userData uid
      let addr_id := if pyTruthyOS addr_id_p then addr_id_p
        else pyOrOS u.active_address_id
          (pyOrOS u.selected_address_id (pyOrOS u.default_address_id u.address_id))
      -- 3) users/uid.active_address embedded object
      if pyTruthyOB (u.active_address.map Addr.nonEmpty) then u.active_address
      else
        -- 2.a/2.b) dereference the id against the sub-collection, then the root
        let byId : Option Addr :=
          if pyTruthyOS addr_id then
            let aid := pyGetS addr_id ""
            match ((dbS.userAddrs uid).find? (fun e => e.1 = aid)).map (fun e => e.2) with
            | some a => some a
            | none => ((dbS.rootAddrs.find? (fun e => e.1 = aid)).map (fun e => e.2))
          else none
        match byId with
        | some a => some a
        | none =>
          -- 4) users/uid.addresses array field
          match u.addresses with
          | some arr =>
            if arr ≠ [] then
              match arr.find? (fun a => pyTruthyOB a.is_active) with
              | some a => some a
              | none =>
                match arr.find? (fun a => pyTruthyOB a.isDefault) with
                | some a => some a
                | none =>
                  match arr.find? (fun a => pyTruthyOB a.is_default) with
                  | some a => some a
                  | none =>
                    match arr.find? (fun a => pyTruthyOB a.selected) with
                    | some a => some a
                    | none => arr.head?
            else
              resolve_from_subcollections dbS uid
          | none => resolve_from_subcollections dbS uid
where
  /-- Steps 5 and 6 of the chain: the users/uid/addresses sub-collection
  (is_active, then is_default, then selected, then first), then the root
  addresses collection filtered by owner. -/
  resolve_from_subcollections (dbS : DB) (uid : String) : Option Addr :=
    let sub := (dbS.userAddrs uid).map (fun e => e.2)
    match sub.find? (fun a => a.is_active = some true) with
    | some a => some a
    | none =>
      match sub.find? (fun a => a.is_default = some true) with
      | some a => some a
      | none =>
        match sub.find? (fun a => a.selected = some true) with
        | some a => some a
        | none =>
          match sub.head? with
          | some a => some a
          | none =>
            ((dbS.rootAddrs.find? (fun e => e.2.user_id = some uid)).map (fun e => e.2))

/-- Port of `fetch_cart_items` (orders_helpers.py): carts/uid `items` array,
then the carts/uid/items sub-collection, then users/uid `cart.items`. -/
def fetch_cart_items (dbS : DB) (uid : String) : List RawItem :=
  match (dbS.carts.find? (fun e => e.1 = uid)).map (fun e => e.2) with
  | some cd =>
    match cd.items with
    | some l => if l ≠ [] then l else fetch_cart_rest dbS uid
    | none => fetch_cart_rest dbS uid
  | none => fetch_cart_rest dbS uid
where
  fetch_cart_rest (dbS : DB) (uid : String) : List RawItem :=
    let sub := dbS.cartItemsSub uid
    if sub ≠ [] then sub
    else
      match (dbS.userData uid).cart with
      | some cf =>
        match cf.items with
        | some l => if l ≠ [] then l else []
        | none => []
      | none => []

/-- Port of `clear_cart` (orders_helpers.py): `carts/uid.items` is set to the
empty array (`set(..., merge=True)` creates the document when missing) and the
carts/uid/items sub-collection is emptied. -/
def clear_cart (dbS : DB) (uid : String) : DB :=
  { dbS with
    carts :=
      if dbS.carts.any (fun e => e.1 = uid) then
        dbS.carts.map (fun e => if e.1 = uid then (uid, { items := some [] }) else e)
      else dbS.carts ++ [(uid, { items := some [] })]
    cartItemsSub := fun u => if u = uid then [] else dbS.cartItemsSub u }

/-- Port of `enrich_items_from_products` (orders_helpers.py) on items in the
coerced shape.  For a catalog hit, the `setdefault` calls are no-ops (every
key is present after `coerce_item`); the effective mutations are the `name`
re-derivation and the `product` snapshot. -/
def enrich_items_from_products (catalog : String → Option ProductData)
    (items : List OrderItemC) : List OrderItemC :=
  items.map fun it =>
    match it.product_id with
    | none => it
    | some pid =>
      if pid = "" then it
      else
        match catalog pid with
        | none => it
        | some pdata =>
          { it with
            name := pyOrS it.name (pyOrS it.title
              (pyGetS (pyOrOS pdata.title pdata.name) "Ürün"))
            product := some
              { title := pyOrOS pdata.title pdata.name
                slug := pdata.slug
                brand := pdata.brand
                category := pdata.category
                attributes := pyOrOS pdata.attributes pdata.specs
                images := pdata.images } }

/-- Port of `ensure_aras_env_or_raise` (orders_helpers.py): the uppercased
`ARAS_ENV` must be one of the allowed environments. -/
def aras_env_ok (st : Settings) : Bool :=
  pyUpper st.ARAS_ENV ∈ ["TEST", "SANDBOX", "PROD", "PRODUCTION", "LIVE"]

/-- The `ValueError` message raised for an invalid `ARAS_ENV` (surfaced as a
400 detail by the creation endpoint). -/
def aras_env_err_msg (st : Settings) : String :=
  "Geçersiz ARAS_ENV: " ++ st.ARAS_ENV ++
  ". İzin verilenler: LIVE, PROD, PRODUCTION, SANDBOX, TEST"

/-- Port of `build_order_doc` (orders_helpers.py).  The only call site passes
no `principal`, so the `customer_*` keys are absent and are not modelled.
Status starts at "Hazırlanıyor"; the simulated flag and tracking number live
only under `shipment`; `_checkout_id` is stored only when truthy. -/
def build_order_doc (uid order_id : String) (addr : Addr)
    (items : List OrderItemC) (totals : Totals) (tracking_no : String)
    (note : Option String) (simulated : Bool) (checkout_id : Option String)
    (log_msg : String) (now : Nat) : OrderDoc :=
  { user_id := uid
    status := "Hazırlanıyor"
    integration_code := order_id
    address := addr
    items := items
    totals := totals
    shipment :=
      { provider := "Aras Kargo"
        tracking_number := some tracking_no
        status := "label_created"
        simulated := simulated
        log := log_msg }
    note := note
    created_at := now
    updated_at := now
    log := log_msg
    checkout_id := if pyTruthyOS checkout_id then checkout_id else none
    tracking_number := none
    last_aras_status := none
    simulated_flag := none
    shipping_provider := none }

/-! ## Order creation (`_create_order_impl`, app/routers/orders.py)

The non-simulated branch builds the receiver and then calls
`aras_single_package(receiver, integration_code, items)`, which forwards
`contents=...` as a keyword argument to `create_shipment_with_setorder`.
That function is declared keyword-only with exactly the parameters
`receiver` and `integration_code` and no `**kwargs`, so Python raises
`TypeError: ... got an unexpected keyword argument` at the call, before any
SOAP request is composed.  The model surfaces this as a `typeError` result;
consequently the third component of the result (the number of SetOrder
requests issued to the carrier) is zero on every path. -/

/-- The uncaught exception text of the dead carrier call. -/
def contentsTypeError : String :=
  "create_shipment_with_setorder() got an unexpected keyword argument: contents"

/-- Steps 5-7 of `_create_order_impl`: persist the document, optionally clear
the cart, run the (no-op) automation hooks, re-read and return the saved
document.  `auto_after_create` is a no-op in the reference system: the label
and pickup providers raise `NotImplementedError` and every caller swallows the
exception before any Firestore write. -/
def finish_create (dbS : DB) (uid order_id : String) (addr : Addr)
    (items : List OrderItemC) (totals : Totals) (tracking_no : String)
    (note : Option String) (simulated : Bool) (checkout_id : Option String)
    (log_msg : String) (now : Nat) (clearCartOnSuccess : Bool)
    (cartRawNonEmpty : Bool) : Except PyError OrderOutD × DB × Nat :=
  let doc := build_order_doc uid order_id addr items totals tracking_no note
    simulated checkout_id log_msg now
  let db1 := { dbS with orders := storeSet dbS.orders order_id doc }
  let db2 := if clearCartOnSuccess ∧ cartRawNonEmpty then clear_cart db1 uid else db1
  match storeGet db2.orders order_id with
  | some saved => (.ok (order_doc_to_out order_id saved), db2, 0)
  | none => (.error (.httpExc 404 "Sipariş bulunamadı."), db2, 0)

/-- Port of `_create_order_impl`.  Arguments: the collections, settings, the
principal, the request payload (`items`, `note`), the `simulate`,
`clear_cart_on_success` and `checkout_id` query parameters, the
`uuid.uuid4()` drawn for the order id, and the server timestamp.  Returns
the endpoint outcome, the resulting collections, and the number of SetOrder
requests issued to the carrier. -/
def create_order_impl (dbS : DB) (st : Settings) (p : Principal)
    (payloadItems : List RawItem) (payloadNote : Option String)
    (simulate clearCartOnSuccess : Bool) (checkoutId : Option String)
    (freshOrderId : String) (now : Nat) :
    Except PyError OrderOutD × DB × Nat :=
  match extract_uid p with
  | none => (.error (.httpExc 401 "Oturum bulunamadı."), dbS, 0)
  | some uid =>
    match resolve_active_address dbS p with
    | none => (.error (.httpExc 400 "Aktif adres bulunamadı. Lütfen bir adres seçin."), dbS, 0)
    | some addr =>
      let cartRaw := fetch_cart_items dbS uid
      let rawItems := if cartRaw ≠ [] then cartRaw else payloadItems
      if rawItems = [] then
        (.error (.httpExc 400 "Sepet boş. Lütfen önce ürün ekleyin."), dbS, 0)
      else
        let items := enrich_items_from_products dbS.catalog (rawItems.map coerce_item)
        let currency := pyUpper (match items with
          | [] => "TRY"
          | i :: _ => i.currency)
        let totals := calc_totals items currency
        let idemHit :=
          if pyTruthyOS checkoutId then
            dbS.orders.find? (fun e => e.2.user_id = uid ∧ e.2.checkout_id = checkoutId)
          else none
        match idemHit with
        | some e => (.ok (order_doc_to_out e.1 e.2), dbS, 0)
        | none =>
          let order_id := freshOrderId
          if simulate then
            finish_create dbS uid order_id addr items totals
              ("FAKE-" ++ pyTake order_id 8) payloadNote true checkoutId
              "Simülasyon: Aras'a istek gönderilmedi." now clearCartOnSuccess
              (cartRaw ≠ [])
          else
            if aras_env_ok st then
              (.error (.typeError contentsTypeError), dbS, 0)
            else
              (.error (.httpExc 400 (aras_env_err_msg st)), dbS, 0)

/-! ## Claims -/

/-! ### Concrete fixtures used by witnesses and counterexamples -/

/-- An address with no keys. -/
def blankAddr : Addr :=
  { label := none, name := none, city := none, district := none,
    neighborhood := none, street := none, buildingNo := none, floor := none,
    apartment := none, zipCode := none, note := none, phone := none,
    user_id := none, is_active := none, isDefault := none, is_default := none,
    selected := none }

/-- An all-zero totals block. -/
def zeroTotals : Totals :=
  { item_count := 0, subtotal := 0, discount := 0, shipping := 0, tax := 0,
    grand_total := 0, currency := "TRY" }

/-- A shipment block as written at creation. -/
def mkShipment (sim : Bool) (tn : Option String) : Shipment :=
  { provider := "Aras Kargo", tracking_number := tn, status := "label_created",
    simulated := sim, log := "log" }

/-- A minimal persisted order document fixture. -/
def mkDoc (uid orderStatus integ : String) (sim : Bool) : OrderDoc :=
  { user_id := uid, status := orderStatus, integration_code := integ,
    address := blankAddr, items := [], totals := zeroTotals,
    shipment := mkShipment sim (some "TR123"), note := none, created_at := 1,
    updated_at := 1, log := "log", checkout_id := none,
    tracking_number := none, last_aras_status := none, simulated_flag := none,
    shipping_provider := none }

/-- A principal fixture carrying only a uid. -/
def mkPrincipal (uid : String) : Principal :=
  { uid := some uid, id := none, user_id := none, sub := none, role := none,
    name := none, phone := none, active_address := none, address := none,
    shipping_address := none, active_address_id := none,
    selected_address_id := none, default_address_id := none,
    address_id := none }

/-- A database fixture with the given collections and nothing else. -/
def mkDB (users : List (String × UserDoc)) (carts : List (String × CartDoc))
    (orders : Store) : DB :=
  { users := users, userAddrs := fun _ => [], rootAddrs := [], carts := carts,
    cartItemsSub := fun _ => [], orders := orders, catalog := fun _ => none }

/-- Claim C5: for every raw line item, the coerced item satisfies
`line_total = round(unit_price * quantity, 2)` with `quantity ≥ 1`; and for
every list of coerced items the computed totals satisfy
`subtotal = sum of line_total`, `item_count = sum of quantities`, zero
discount/shipping/tax, and
`grand_total = subtotal - discount + shipping + tax`. -/
theorem C5_line_item_arithmetic :
    (∀ d : RawItem,
        (coerce_item d).line_total
            = round2 ((coerce_item d).unit_price * ((coerce_item d).quantity : ℚ))
          ∧ 1 ≤ (coerce_item d).quantity)
      ∧ ∀ (raws : List RawItem) (c : String),
          (calc_totals (raws.map coerce_item) c).subtotal
              = ((raws.map coerce_item).map (fun it => it.line_total)).sum
            ∧ (calc_totals (raws.map coerce_item) c).item_count
              = ((raws.map coerce_item).map (fun it => it.quantity)).sum
            ∧ (calc_totals (raws.map coerce_item) c).discount = 0
            ∧ (calc_totals (raws.map coerce_item) c).shipping = 0
            ∧ (calc_totals (raws.map coerce_item) c).tax = 0
            ∧ (calc_totals (raws.map coerce_item) c).grand_total
              = (calc_totals (raws.map coerce_item) c).subtotal
                - (calc_totals (raws.map coerce_item) c).discount
                + (calc_totals (raws.map coerce_item) c).shipping
                + (calc_totals (raws.map coerce_item) c).tax := by
  constructor
  · intro d
    constructor
    · simp only [coerce_item, qmul_eq, qofInt_eq]
    · exact le_max_left 1 _
  · intro raws c
    refine ⟨qsum_eq _, rfl, rfl, rfl, rfl, ?_⟩
    simp only [calc_totals, qsub_eq, qadd_eq]
    rw [sub_zero, add_zero, add_zero, qsum_eq]
    refine round2_eq_self_of_isCent (isCent_sum ?_)
    intro q hq
    rcases List.mem_map.mp hq with ⟨it, hit, rfl⟩
    rcases List.mem_map.mp hit with ⟨raw, _, rfl⟩
    exact round2_isCent _

/-- Claim C9: with credentials configured and a non-empty caller integration
code, a parsed SetOrder response succeeds exactly when `ResultCode` is the
string "0"; on success the tracking number is `InvoiceKey` if present and
non-empty, else `BarcodeNumber` if present and non-empty, else the caller
integration code; a missing or non-zero `ResultCode` is a failure, and a
non-zero code surfaces the carrier `ResultMessage`. -/
theorem C9_setorder_gateway (st : Settings) (fresh c : String)
    (resp : SetOrderResp) (hu : st.ARAS_USERNAME ≠ "")
    (hp : st.ARAS_PASSWORD ≠ "") (hc : c ≠ "") :
    ((create_shipment_with_setorder st fresh (some c) (.parsed resp)).1 = true
        ↔ resp.resultCode = some (some "0"))
      ∧ ((create_shipment_with_setorder st fresh (some c) (.parsed resp)).1 = true →
          (create_shipment_with_setorder st fresh (some c) (.parsed resp)).2.1 =
            some (match elemText resp.invoiceKey with
              | some ik => if ik ≠ "" then ik else
                  (match elemText resp.barcodeNumber with
                    | some bc => if bc ≠ "" then bc else c
                    | none => c)
              | none =>
                  (match elemText resp.barcodeNumber with
                    | some bc => if bc ≠ "" then bc else c
                    | none => c)))
      ∧ (resp.resultCode = none →
          (create_shipment_with_setorder st fresh (some c) (.parsed resp)).1 = false)
      ∧ (∀ t, resp.resultCode = some t → t ≠ some "0" →
          (create_shipment_with_setorder st fresh (some c) (.parsed resp)).1 = false)
      ∧ (∀ t m, resp.resultCode = some t → t ≠ some "0" →
          resp.resultMessage = some (some m) →
          (create_shipment_with_setorder st fresh (some c) (.parsed resp)).2.2
            = "Aras SetOrder hata: " ++ m) := by
  have hcred : ¬ (st.ARAS_USERNAME = "" ∨ st.ARAS_PASSWORD = "") := by
    rintro (h | h)
    · exact hu h
    · exact hp h
  rcases resp with ⟨rc, rm, ik, bc⟩
  simp only [create_shipment_with_setorder, if_neg hcred]
  rcases rc with _ | rcT
  · simp
  · by_cases h0 : rcT = some "0"
    · subst h0
      have htrack :
          pyGetS (pyOrOS (elemText ik) (elemText bc)) (pyGetS (some c) fresh)
            = (match elemText ik with
              | some ikT => if ikT ≠ "" then ikT else
                  (match elemText bc with
                    | some bcT => if bcT ≠ "" then bcT else c
                    | none => c)
              | none =>
                  (match elemText bc with
                    | some bcT => if bcT ≠ "" then bcT else c
                    | none => c)) := by
        have hcc : pyGetS (some c) fresh = c := by simp [pyGetS, hc]
        rcases hik : elemText ik with _ | ikT
        · rcases hbc : elemText bc with _ | bcT
          · simp [pyOrOS, pyTruthyOS, pyGetS, hcc, hc]
          · by_cases hbe : bcT = ""
            · subst hbe; simp [pyOrOS, pyTruthyOS, pyGetS, hcc, hc]
            · simp [pyOrOS, pyTruthyOS, pyGetS, hbe, hcc, hc]
        · by_cases hie : ikT = ""
          · subst hie
            rcases hbc : elemText bc with _ | bcT
            · simp [pyOrOS, pyTruthyOS, pyGetS, hcc, hc]
            · by_cases hbe : bcT = ""
              · subst hbe; simp [pyOrOS, pyTruthyOS, pyGetS, hcc, hc]
              · simp [pyOrOS, pyTruthyOS, pyGetS, hbe, hcc, hc]
          · simp [pyOrOS, pyTruthyOS, pyGetS, hie, hcc, hc]
      simp only [ne_eq, not_true_eq_false, if_false]
      refine ⟨by simp, ?_, by simp, ?_, ?_⟩
      · intro _
        exact congrArg some htrack
      · intro t ht hne
        cases ht
        exact absurd rfl hne
      · intro t m ht hne
        cases ht
        exact absurd rfl hne
    · simp only [ne_eq, h0, not_false_eq_true, if_true]
      refine ⟨by simp [h0], by simp, by simp, by simp, ?_⟩
      intro t m ht hne hm
      cases ht
      cases hm
      rfl

/-- Witness for C9: a concrete successful response with `ResultCode = "0"`
and `InvoiceKey = "123456789"`. -/
theorem C9_setorder_gateway_witness :
    (create_shipment_with_setorder
        { ARAS_USERNAME := "user", ARAS_PASSWORD := "pw", ARAS_ENV := "TEST",
          ARAS_WEBHOOK_SECRET := "" }
        "fresh-uuid" (some "ORD-1")
        (.parsed { resultCode := some (some "0"), resultMessage := none,
                   invoiceKey := some (some "123456789"), barcodeNumber := none })).1
        = true
      ↔ (some (some "0") : Option (Option String)) = some (some "0") :=
  (C9_setorder_gateway
    { ARAS_USERNAME := "user", ARAS_PASSWORD := "pw", ARAS_ENV := "TEST",
      ARAS_WEBHOOK_SECRET := "" }
    "fresh-uuid" "ORD-1"
    { resultCode := some (some "0"), resultMessage := none,
      invoiceKey := some (some "123456789"), barcodeNumber := none }
    (by decide) (by decide) (by decide)).1

/-- Claim C10: with an empty configured webhook secret, the webhook endpoint
performs no authentication: its behavior is independent of the payload secret
field, and every payload naming an existing order is applied (order patched,
success returned); the 401 branch is reachable only when a non-empty secret
is configured and the payload secret differs from it. -/
theorem C10_webhook_no_secret_no_auth (st : Settings) (s : Store)
    (payload : WebhookPayload) (now : Nat) :
    (st.ARAS_WEBHOOK_SECRET = "" →
        ∀ sec1 sec2 : Option String,
          aras_webhook st s { payload with secret := sec1 } now
            = aras_webhook st s { payload with secret := sec2 } now)
      ∧ (st.ARAS_WEBHOOK_SECRET = "" →
          ∀ (integ : String) (e : String × OrderDoc),
            pyOrOS payload.integration_code payload.order_id = some integ →
            integ ≠ "" →
            s.find? (fun x => x.2.integration_code = integ) = some e →
            (aras_webhook st s payload now).1 = .ok ()
              ∧ (storeGet (aras_webhook st s payload now).2 e.1).map
                    (fun d => d.status)
                  = some (map_webhook_status
                      (pyGetS (pyOrOS payload.status payload.message) "")))
      ∧ ((aras_webhook st s payload now).1
            = .error (.httpExc 401 "invalid secret") →
          st.ARAS_WEBHOOK_SECRET ≠ ""
            ∧ payload.secret ≠ some st.ARAS_WEBHOOK_SECRET) := by
  refine ⟨?_, ?_, ?_⟩
  · intro h sec1 sec2
    simp [aras_webhook, pyTruthyS, h]
  · intro h integ e hinteg hne hfind
    have hguard : ¬ (pyTruthyS st.ARAS_WEBHOOK_SECRET
        ∧ payload.secret ≠ some st.ARAS_WEBHOOK_SECRET) := by
      simp [pyTruthyS, h]
    constructor
    · simp only [aras_webhook, if_neg hguard, hinteg, hne, if_false, hfind]
    · simp only [aras_webhook, if_neg hguard, hinteg, hne, if_false, hfind,
        storeGet_storeSet]
      rfl
  · intro hres
    by_cases hg : pyTruthyS st.ARAS_WEBHOOK_SECRET
        ∧ payload.secret ≠ some st.ARAS_WEBHOOK_SECRET
    · refine ⟨?_, hg.2⟩
      intro hempty
      have := hg.1
      rw [hempty] at this
      simp [pyTruthyS] at this
    · exfalso
      revert hres
      simp only [aras_webhook, if_neg hg]
      rcases hx : pyOrOS payload.integration_code payload.order_id with _ | integ
      · simp
      · by_cases hi : integ = ""
        · simp [hi]
        · simp only [hi, if_false]
          rcases hf : s.find? (fun x => x.2.integration_code = integ) with _ | e
          · simp [hf]
          · simp [hf]

/-- Witness for C10: empty configured secret, a payload with no secret field
naming the existing order X, which is applied. -/
theorem C10_webhook_no_secret_no_auth_witness :
    (aras_webhook
        { ARAS_USERNAME := "u", ARAS_PASSWORD := "p", ARAS_ENV := "TEST",
          ARAS_WEBHOOK_SECRET := "" }
        [("doc1", mkDoc "u1" "Hazırlanıyor" "X" false)]
        { secret := none, integration_code := some "X", order_id := none,
          status := some "yolda", message := none, tracking_number := none }
        7).1 = .ok ()
      ∧ (storeGet
          (aras_webhook
            { ARAS_USERNAME := "u", ARAS_PASSWORD := "p", ARAS_ENV := "TEST",
              ARAS_WEBHOOK_SECRET := "" }
            [("doc1", mkDoc "u1" "Hazırlanıyor" "X" false)]
            { secret := none, integration_code := some "X", order_id := none,
              status := some "yolda", message := none,
              tracking_number := none }
            7).2 "doc1").map (fun d => d.status)
        = some (map_webhook_status (pyGetS (pyOrOS (some "yolda") none) "")) :=
  (C10_webhook_no_secret_no_auth
    { ARAS_USERNAME := "u", ARAS_PASSWORD := "p", ARAS_ENV := "TEST",
      ARAS_WEBHOOK_SECRET := "" }
    [("doc1", mkDoc "u1" "Hazırlanıyor" "X" false)]
    { secret := none, integration_code := some "X", order_id := none,
      status := some "yolda", message := none, tracking_number := none }
    7).2.1 rfl "X" ("doc1", mkDoc "u1" "Hazırlanıyor" "X" false)
    (by decide) (by decide) (by decide)

/-- Decidable equality for endpoint outcomes. -/
instance exceptDecEq {ε α : Type} [DecidableEq ε] [DecidableEq α] :
    DecidableEq (Except ε α)
  | .ok a, .ok b =>
      if h : a = b then .isTrue (by rw [h])
      else .isFalse (by intro hh; cases hh; exact h rfl)
  | .ok _, .error _ => .isFalse (by intro h; cases h)
  | .error _, .ok _ => .isFalse (by intro h; cases h)
  | .error e, .error f =>
      if h : e = f then .isTrue (by rw [h])
      else .isFalse (by intro hh; cases hh; exact h rfl)

/-! ### Claim C2 -/

theorem sync_open_orders_once_length (carrier : String → StatusQuad)
    (s : Store) (now : Nat) :
    (sync_open_orders_once carrier s now).2.length = s.length := by
  simp [sync_open_orders_once]

/-- Claim C2 counterexample: a delivered order ("Teslim Edildi") is regressed
to "Yolda" by a webhook carrying the status text "yolda": the webhook applies
its classifier unconditionally, with no terminal-state guard. -/
theorem C2_counterexample_webhook_regresses_terminal :
    (storeGet [("doc1", mkDoc "u1" "Teslim Edildi" "X" false)] "doc1").map
        (fun d => d.status) = some "Teslim Edildi"
      ∧ (aras_webhook
          { ARAS_USERNAME := "u", ARAS_PASSWORD := "p", ARAS_ENV := "TEST",
            ARAS_WEBHOOK_SECRET := "" }
          [("doc1", mkDoc "u1" "Teslim Edildi" "X" false)]
          { secret := none, integration_code := some "X", order_id := none,
            status := some "yolda", message := none, tracking_number := none }
          7).1 = .ok ()
      ∧ (storeGet
          (aras_webhook
            { ARAS_USERNAME := "u", ARAS_PASSWORD := "p", ARAS_ENV := "TEST",
              ARAS_WEBHOOK_SECRET := "" }
            [("doc1", mkDoc "u1" "Teslim Edildi" "X" false)]
            { secret := none, integration_code := some "X", order_id := none,
              status := some "yolda", message := none, tracking_number := none }
            7).2 "doc1").map (fun d => d.status) = some "Yolda" := by
  decide

/-- Claim C2 (amended): the periodic synchronizer never touches an order in a
terminal state ("Teslim Edildi" or "İptal") — its selection covers only the
open statuses — for any carrier-reported answer; the webhook, by contrast,
patches any matching order unconditionally and can regress a terminal
status. -/
theorem C2_terminal_not_regressed_by_polling (carrier : String → StatusQuad)
    (s : Store) (now : Nat) (i : Nat) (hi : i < s.length)
    (hterm : (s.get ⟨i, hi⟩).2.status = "Teslim Edildi"
      ∨ (s.get ⟨i, hi⟩).2.status = "İptal") :
    (sync_open_orders_once carrier s now).2.get
        ⟨i, by rw [sync_open_orders_once_length]; exact hi⟩
      = s.get ⟨i, hi⟩ := by
  have hmap : (sync_open_orders_once carrier s now).2.get
      ⟨i, by rw [sync_open_orders_once_length]; exact hi⟩
      = (fun e => if e.2.status ∈ OPEN_STATUSES then
          (e.1, (sync_entry carrier now e.2).1) else (e.1, e.2)) (s.get ⟨i, hi⟩) := by
    simp only [sync_open_orders_once, List.get_eq_getElem, List.getElem_map]
    split <;> rfl
  rw [hmap]
  have hnot : ¬ (s.get ⟨i, hi⟩).2.status ∈ OPEN_STATUSES := by
    rcases hterm with h | h <;> rw [h] <;> decide
  dsimp only
  rw [if_neg hnot]

/-- Witness for the amended C2: a one-order store holding a delivered order is
returned unchanged by a synchronizer run, for a carrier that would answer
"yolda". -/
theorem C2_terminal_not_regressed_by_polling_witness :
    (sync_open_orders_once (fun _ => (true, some "yolda", false, none))
        [("doc1", mkDoc "u1" "Teslim Edildi" "X" false)] 7).2.get
        ⟨0, by rw [sync_open_orders_once_length]; decide⟩
      = (("doc1", mkDoc "u1" "Teslim Edildi" "X" false) : String × OrderDoc) :=
  C2_terminal_not_regressed_by_polling
    (fun _ => (true, some "yolda", false, none))
    [("doc1", mkDoc "u1" "Teslim Edildi" "X" false)] 7 0 (by decide)
    (Or.inl (by decide))

/-! ### Claim C3 -/

/-- Claim C3 counterexample: an order created with `simulate=true`
(simulated shipment, creation status "Hazırlanıyor") is mutated by a webhook
naming its integration code: the webhook checks no simulated flag, and
patches status, status-text annotation, timestamp and tracking number. -/
theorem C3_counterexample_webhook_mutates_simulated :
    (mkDoc "u1" "Hazırlanıyor" "S1" true).shipment.simulated = true
      ∧ (aras_webhook
          { ARAS_USERNAME := "u", ARAS_PASSWORD := "p", ARAS_ENV := "TEST",
            ARAS_WEBHOOK_SECRET := "" }
          [("doc1", mkDoc "u1" "Hazırlanıyor" "S1" true)]
          { secret := none, integration_code := some "S1", order_id := none,
            status := some "yolda", message := none,
            tracking_number := some "TRK9" }
          7).1 = .ok ()
      ∧ (storeGet
          (aras_webhook
            { ARAS_USERNAME := "u", ARAS_PASSWORD := "p", ARAS_ENV := "TEST",
              ARAS_WEBHOOK_SECRET := "" }
            [("doc1", mkDoc "u1" "Hazırlanıyor" "S1" true)]
            { secret := none, integration_code := some "S1", order_id := none,
              status := some "yolda", message := none,
              tracking_number := some "TRK9" }
            7).2 "doc1").map (fun d => (d.status, d.tracking_number))
          = some ("Yolda", some "TRK9")
      ∧ (storeGet
          (aras_webhook
            { ARAS_USERNAME := "u", ARAS_PASSWORD := "p", ARAS_ENV := "TEST",
              ARAS_WEBHOOK_SECRET := "" }
            [("doc1", mkDoc "u1" "Hazırlanıyor" "S1" true)]
            { secret := none, integration_code := some "S1", order_id := none,
              status := some "yolda", message := none,
              tracking_number := some "TRK9" }
            7).2 "doc1") ≠ some (mkDoc "u1" "Hazırlanıyor" "S1" true) := by
  decide

/-- Claim C3 (amended): a simulated order is untouched by a Status
Synchronizer run only while its status is still the creation status
"Hazırlanıyor", which lies outside the open-status selection; neither the
batch synchronizer nor the webhook consults the simulated flag, and a webhook
naming a simulated order mutates it like any other order. -/
theorem C3_simulated_preparing_untouched_by_polling
    (carrier : String → StatusQuad) (s : Store) (now : Nat) (i : Nat)
    (hi : i < s.length)
    (hsim : (s.get ⟨i, hi⟩).2.shipment.simulated = true)
    (hstat : (s.get ⟨i, hi⟩).2.status = "Hazırlanıyor") :
    (sync_open_orders_once carrier s now).2.get
        ⟨i, by rw [sync_open_orders_once_length]; exact hi⟩
      = s.get ⟨i, hi⟩ := by
  have hmap : (sync_open_orders_once carrier s now).2.get
      ⟨i, by rw [sync_open_orders_once_length]; exact hi⟩
      = (fun e => if e.2.status ∈ OPEN_STATUSES then
          (e.1, (sync_entry carrier now e.2).1) else (e.1, e.2)) (s.get ⟨i, hi⟩) := by
    simp only [sync_open_orders_once, List.get_eq_getElem, List.getElem_map]
    split <;> rfl
  rw [hmap]
  have hnot : ¬ (s.get ⟨i, hi⟩).2.status ∈ OPEN_STATUSES := by
    rw [hstat]; decide
  dsimp only
  rw [if_neg hnot]

/-- Witness for the amended C3: a freshly created simulated order is left
unchanged by a synchronizer run. -/
theorem C3_simulated_preparing_untouched_by_polling_witness :
    (sync_open_orders_once (fun _ => (true, some "teslim edildi", true, some "T2"))
        [("doc1", mkDoc "u1" "Hazırlanıyor" "S1" true)] 7).2.get
        ⟨0, by rw [sync_open_orders_once_length]; decide⟩
      = (("doc1", mkDoc "u1" "Hazırlanıyor" "S1" true) : String × OrderDoc) :=
  C3_simulated_preparing_untouched_by_polling
    (fun _ => (true, some "teslim edildi", true, some "T2"))
    [("doc1", mkDoc "u1" "Hazırlanıyor" "S1" true)] 7 0 (by decide)
    (by decide) (by decide)

/-! ### Claim C8 -/

/-- Claim C8 counterexample: an order already out for delivery ("Dağıtımda",
past HandedToCarrier) is NOT left unchanged by the administrative mark-shipped
action: its status is moved backward to "Kargoya Verildi". -/
theorem C8_counterexample_mark_shipped_regresses :
    (storeGet [("doc1", mkDoc "u1" "Dağıtımda" "X" false)] "doc1").map
        (fun d => d.status) = some "Dağıtımda"
      ∧ (storeGet
          (admin_mark_shipped [("doc1", mkDoc "u1" "Dağıtımda" "X" false)]
            "doc1" 9).2 "doc1").map (fun d => d.status)
          = some "Kargoya Verildi" := by
  decide

/-- Claim C8 (amended): mark-shipped is a no-op exactly on the terminal
statuses ("Teslim Edildi", "İptal") and on a status already equal to
"Kargoya Verildi"; every other status — including the later states "Yolda"
and "Dağıtımda" — is overwritten with "Kargoya Verildi". -/
theorem C8_mark_shipped_characterization (s : Store) (oid : String)
    (now : Nat) (d : OrderDoc) (hget : storeGet s oid = some d) :
    ((pyStrip (pyOrS d.status "") = "Teslim Edildi"
        ∨ pyStrip (pyOrS d.status "") = "İptal") →
      admin_mark_shipped s oid now = (.ok (order_doc_to_out oid d), s))
    ∧ (pyStrip (pyOrS d.status "") = "Kargoya Verildi" →
      admin_mark_shipped s oid now = (.ok (order_doc_to_out oid d), s))
    ∧ (¬ (pyStrip (pyOrS d.status "") = "Teslim Edildi"
          ∨ pyStrip (pyOrS d.status "") = "İptal"
          ∨ pyStrip (pyOrS d.status "") = "Kargoya Verildi") →
      admin_mark_shipped s oid now
        = (.ok (order_doc_to_out oid
            { d with status := "Kargoya Verildi", updated_at := now }),
           storeSet s oid
            { d with status := "Kargoya Verildi", updated_at := now })) := by
  refine ⟨?_, ?_, ?_⟩
  · intro hterm
    simp only [admin_mark_shipped, hget, if_pos hterm]
  · intro hkv
    have hne : ¬ (pyStrip (pyOrS d.status "") = "Teslim Edildi"
        ∨ pyStrip (pyOrS d.status "") = "İptal") := by
      rw [hkv]; decide
    simp only [admin_mark_shipped, hget, if_neg hne, hkv, ne_eq,
      not_true_eq_false, if_false]
    exact ite_self _
  · intro hother
    push_neg at hother
    obtain ⟨h1, h2, h3⟩ := hother
    have hne : ¬ (pyStrip (pyOrS d.status "") = "Teslim Edildi"
        ∨ pyStrip (pyOrS d.status "") = "İptal") := by
      rintro (h | h)
      · exact h1 h
      · exact h2 h
    simp only [admin_mark_shipped, hget, if_neg hne, ne_eq, h3,
      not_false_eq_true, if_true]

/-- Witness for the amended C8: a delivered order is returned unchanged, and
an order in "Sipariş Alındı" is moved to "Kargoya Verildi". -/
theorem C8_mark_shipped_characterization_witness :
    admin_mark_shipped [("doc1", mkDoc "u1" "Teslim Edildi" "X" false)] "doc1" 9
        = (.ok (order_doc_to_out "doc1" (mkDoc "u1" "Teslim Edildi" "X" false)),
           [("doc1", mkDoc "u1" "Teslim Edildi" "X" false)])
      ∧ admin_mark_shipped [("doc2", mkDoc "u1" "Sipariş Alındı" "Y" false)] "doc2" 9
        = (.ok (order_doc_to_out "doc2"
            { mkDoc "u1" "Sipariş Alındı" "Y" false with
                status := "Kargoya Verildi", updated_at := 9 }),
           storeSet [("doc2", mkDoc "u1" "Sipariş Alındı" "Y" false)] "doc2"
            { mkDoc "u1" "Sipariş Alındı" "Y" false with
                status := "Kargoya Verildi", updated_at := 9 }) :=
  ⟨(C8_mark_shipped_characterization
      [("doc1", mkDoc "u1" "Teslim Edildi" "X" false)] "doc1" 9
      (mkDoc "u1" "Teslim Edildi" "X" false) (by decide)).1
    (Or.inl (by decide)),
   (C8_mark_shipped_characterization
      [("doc2", mkDoc "u1" "Sipariş Alındı" "Y" false)] "doc2" 9
      (mkDoc "u1" "Sipariş Alındı" "Y" false) (by decide)).2.2
    (by decide)⟩

/-! ### Claim C6 -/

/-- Claim C6: whenever the carrier status query succeeds with
`delivered = true`, the per-order sync endpoint and the periodic synchronizer
both set the order status to "Teslim Edildi", whatever the status text and
tracking fields are (the text classifier is bypassed). -/
theorem C6_delivered_flag_forces_delivered (carrier : String → StatusQuad)
    (s : Store) (p : Principal) (oid : String) (d : OrderDoc) (now : Nat)
    (txt : Option String) (tr : Option String) (i : Nat) (hi : i < s.length) :
    ((storeGet s oid = some d →
      (extract_uid_u p = some d.user_id ∨ principal_role p = "admin") →
      ¬ (pyTruthyOB d.simulated_flag
          ∨ pyStartsWith (pyGetS d.tracking_number "") "FAKE-" = true) →
      d.integration_code ≠ "" →
      carrier d.integration_code = (true, txt, true, tr) →
      (storeGet (sync_status_from_aras carrier s p oid now).2 oid).map
          (fun x => x.status) = some "Teslim Edildi"))
    ∧ ((s.get ⟨i, hi⟩).2.status ∈ OPEN_STATUSES →
      (s.get ⟨i, hi⟩).2.integration_code ≠ "" →
      carrier (s.get ⟨i, hi⟩).2.integration_code = (true, txt, true, tr) →
      ((sync_open_orders_once carrier s now).2.get
          ⟨i, by rw [sync_open_orders_once_length]; exact hi⟩).2.status
        = "Teslim Edildi") := by
  constructor
  · intro hget hauth hguard hinteg hcarrier
    have hauth2 : ¬ (extract_uid_u p ≠ some d.user_id ∧ principal_role p ≠ "admin") := by
      rcases hauth with h | h
      · intro hh; exact hh.1 h
      · intro hh; exact hh.2 h
    simp only [sync_status_from_aras, hget, if_neg hauth2, if_neg hguard,
      ne_eq, hinteg, not_false_eq_true, if_false, if_neg hinteg, hcarrier]
    simp only [Bool.true_eq_false, if_false, if_true, storeGet_storeSet]
    split <;> split <;> rfl
  · intro hmem hinteg hcarrier
    have hmap : (sync_open_orders_once carrier s now).2.get
        ⟨i, by rw [sync_open_orders_once_length]; exact hi⟩
        = (fun e => if e.2.status ∈ OPEN_STATUSES then
            (e.1, (sync_entry carrier now e.2).1) else (e.1, e.2)) (s.get ⟨i, hi⟩) := by
      simp only [sync_open_orders_once, List.get_eq_getElem, List.getElem_map]
      split <;> rfl
    rw [hmap]
    dsimp only
    rw [if_pos hmem]
    simp only [sync_entry, if_neg hinteg, hcarrier]
    simp only [Bool.true_eq_false, if_false, if_true]
    split <;> rfl

/-- Witness for C6: a carrier answering `delivered = true` with an empty
status text moves an open, non-simulated order to "Teslim Edildi" through
both paths. -/
theorem C6_delivered_flag_forces_delivered_witness :
    (storeGet (sync_status_from_aras (fun _ => (true, none, true, none))
        [("doc1", mkDoc "u1" "Kargoya Verildi" "X" false)]
        (mkPrincipal "u1") "doc1" 9).2 "doc1").map (fun x => x.status)
        = some "Teslim Edildi"
      ∧ ((sync_open_orders_once (fun _ => (true, none, true, none))
          [("doc1", mkDoc "u1" "Kargoya Verildi" "X" false)] 9).2.get
          ⟨0, by rw [sync_open_orders_once_length]; decide⟩).2.status
        = "Teslim Edildi" :=
  ⟨(C6_delivered_flag_forces_delivered (fun _ => (true, none, true, none))
      [("doc1", mkDoc "u1" "Kargoya Verildi" "X" false)] (mkPrincipal "u1")
      "doc1" (mkDoc "u1" "Kargoya Verildi" "X" false) 9 none none 0
      (by decide)).1 (by decide) (Or.inl (by decide)) (by decide) (by decide) rfl,
   (C6_delivered_flag_forces_delivered (fun _ => (true, none, true, none))
      [("doc1", mkDoc "u1" "Kargoya Verildi" "X" false)] (mkPrincipal "u1")
      "doc1" (mkDoc "u1" "Kargoya Verildi" "X" false) 9 none none 0
      (by decide)).2 (by decide) (by decide) rfl⟩

/-! ### Claim C7 -/

/-- An address fixture carrying only a street — no city. -/
def streetOnlyAddr : Addr := { blankAddr with street := some "Sokak 1" }

/-- Claim C7 counterexample: a principal whose embedded `address` has a street
but no city resolves to that city-less address: the resolver performs no
check that a candidate contains a city. -/
theorem C7_counterexample_cityless_address_accepted :
    resolve_active_address (mkDB [] [] [])
        { mkPrincipal "u1" with address := some streetOnlyAddr }
      = some streetOnlyAddr
    ∧ streetOnlyAddr.city = none := by
  decide

/-- Claim C7 (amended): the resolver returns the first truthy candidate of
the fallback chain without validating the presence of a city; in particular,
for any principal with a uid, any non-empty embedded `active_address` is
returned as the resolved address as-is, city or no city. -/
theorem C7_first_truthy_candidate_wins (dbS : DB) (p : Principal)
    (uid : String) (a : Addr) (huid : extract_uid p = some uid)
    (ha : p.active_address = some a) (hne : a.nonEmpty = true) :
    resolve_active_address dbS p = some a := by
  have hcond : pyTruthyOB (Option.map Addr.nonEmpty (some a)) = true := by
    simpa [pyTruthyOB, Option.map] using hne
  simp only [resolve_active_address, huid, ha, hcond, if_true]

/-- Witness for the amended C7: the street-only principal address is resolved
even against a database that holds a full address for the user. -/
theorem C7_first_truthy_candidate_wins_witness :
    resolve_active_address
        (mkDB [("u1",
          { emptyUserDoc with
              active_address := some { blankAddr with city := some "İstanbul" } })] [] [])
        { mkPrincipal "u1" with active_address := some streetOnlyAddr }
      = some streetOnlyAddr :=
  C7_first_truthy_candidate_wins
    (mkDB [("u1",
      { emptyUserDoc with
          active_address := some { blankAddr with city := some "İstanbul" } })] [] [])
    { mkPrincipal "u1" with active_address := some streetOnlyAddr }
    "u1" streetOnlyAddr (by decide) (by decide) (by decide)

/-! ### Claim C1 -/

/-- A cart line fixture: two units of product P1 at 50.00. -/
def rawP1 : RawItem :=
  { product_id := some "P1", id := none, title := some "Ürün 1", name := none,
    product_name := none, sku := none, variant_id := none, quantity := some 2,
    unit_price := some 50, price := none, currency := some "TRY",
    image_url := none, options := none }

/-- A database fixture: one user with an active address and a cart holding
`rawP1`; no orders yet. -/
def dbC1 : DB := mkDB
  [("u1", { emptyUserDoc with
      active_address := some { blankAddr with city := some "İstanbul" } })]
  [("u1", { items := some [rawP1] })] []

/-- A settings fixture with carrier credentials and the TEST environment. -/
def stTest : Settings :=
  { ARAS_USERNAME := "user", ARAS_PASSWORD := "pw", ARAS_ENV := "TEST",
    ARAS_WEBHOOK_SECRET := "" }

/-- Claim C1 counterexample: a first (simulated) checkout with
`checkout_id = "co1"` succeeds and clears the cart; retrying the identical
request afterwards does not return the first order — the empty-cart guard
runs before the idempotency lookup, so the retry fails with 400 "Sepet boş".
No duplicate order is created, but the response is not the original order. -/
theorem C1_counterexample_retry_after_cart_clear :
    exceptOk2 (create_order_impl dbC1 stTest (mkPrincipal "u1") [] none true
        true (some "co1") "ord00001" 5).1 = true
      ∧ (create_order_impl
          (create_order_impl dbC1 stTest (mkPrincipal "u1") [] none true true
            (some "co1") "ord00001" 5).2.1
          stTest (mkPrincipal "u1") [] none true true (some "co1") "ord00002"
          6).1
        = .error (.httpExc 400 "Sepet boş. Lütfen önce ürün ekleyin.") := by
  decide

theorem find?_append_none {α : Type} (p : α → Bool) (l1 l2 : List α)
    (h : l1.find? p = none) : (l1 ++ l2).find? p = l2.find? p := by
  induction l1 with
  | nil => simp
  | cons a t ih =>
      cases hpa : p a with
      | true => rw [List.find?_cons_of_pos _ hpa] at h; cases h
      | false =>
          rw [List.find?_cons_of_neg _ (by simp [hpa])] at h
          rw [List.cons_append, List.find?_cons_of_neg _ (by simp [hpa])]
          exact ih h

theorem storeSet_append_of_fresh (s : Store) (id : String) (d : OrderDoc)
    (h : s.any (fun e => e.1 = id) = false) :
    storeSet s id d = s ++ [(id, d)] := by
  unfold storeSet
  rw [h]
  simp

theorem clear_cart_orders (d : DB) (u : String) :
    (clear_cart d u).orders = d.orders := rfl

theorem finish_create_spec (dbS : DB) (uid oid : String) (addr : Addr)
    (items : List OrderItemC) (totals : Totals) (tr : String)
    (note : Option String) (sim : Bool) (cid : Option String) (lg : String)
    (now : Nat) (clr cne : Bool) :
    (finish_create dbS uid oid addr items totals tr note sim cid lg now clr cne).1
        = .ok (order_doc_to_out oid
            (build_order_doc uid oid addr items totals tr note sim cid lg now))
      ∧ (finish_create dbS uid oid addr items totals tr note sim cid lg now clr cne).2.1.orders
        = storeSet dbS.orders oid
            (build_order_doc uid oid addr items totals tr note sim cid lg now)
      ∧ (finish_create dbS uid oid addr items totals tr note sim cid lg now clr cne).2.2
        = 0 := by
  simp only [finish_create]
  generalize build_order_doc uid oid addr items totals tr note sim cid lg now = doc
  have hord : (if clr ∧ cne then
        clear_cart { dbS with orders := storeSet dbS.orders oid doc } uid
      else { dbS with orders := storeSet dbS.orders oid doc }).orders
      = storeSet dbS.orders oid doc := by
    split <;> rfl
  rw [hord, storeGet_storeSet]
  dsimp only
  exact ⟨rfl, hord, rfl⟩

/-- Claim C1 (amended): when the retried call reaches the idempotency lookup
— it must present a resolvable active address and a non-empty item list,
which a cart-based retry does not after the first call cleared the cart — a
second call with the same non-empty `(user, checkout_id)` after a successful
first call returns the first call result unchanged, leaves the collections
untouched, and issues no carrier request. -/
theorem C1_idempotent_checkout_amended (db0 : DB) (st st2 : Settings)
    (p p2 : Principal) (pi pi2 : List RawItem) (note note2 : Option String)
    (sim1 sim2 clr clr2 : Bool) (c fresh fresh2 : String) (now now2 : Nat)
    (uid : String) (addr addr2 : Addr)
    (huid : extract_uid p = some uid)
    (haddr : resolve_active_address db0 p = some addr)
    (hc : c ≠ "")
    (hfresh : db0.orders.any (fun e => e.1 = fresh) = false)
    (hnomatch : db0.orders.find?
        (fun e => e.2.user_id = uid ∧ e.2.checkout_id = some c) = none)
    (hitems1 : (if fetch_cart_items db0 uid ≠ [] then fetch_cart_items db0 uid
        else pi) ≠ [])
    (hok : exceptOk2
        (create_order_impl db0 st p pi note sim1 clr (some c) fresh now).1 = true)
    (huid2 : extract_uid p2 = some uid)
    (haddr2 : resolve_active_address
        (create_order_impl db0 st p pi note sim1 clr (some c) fresh now).2.1 p2
        = some addr2)
    (hitems2 : (if fetch_cart_items
          (create_order_impl db0 st p pi note sim1 clr (some c) fresh now).2.1 uid ≠ []
        then fetch_cart_items
          (create_order_impl db0 st p pi note sim1 clr (some c) fresh now).2.1 uid
        else pi2) ≠ []) :
    create_order_impl
        (create_order_impl db0 st p pi note sim1 clr (some c) fresh now).2.1
        st2 p2 pi2 note2 sim2 clr2 (some c) fresh2 now2
      = ((create_order_impl db0 st p pi note sim1 clr (some c) fresh now).1,
         (create_order_impl db0 st p pi note sim1 clr (some c) fresh now).2.1,
         0) := by
  have hcb : pyTruthyOS (some c) = true := by simp [pyTruthyOS, hc]
  cases sim1 with
  | false =>
      exfalso
      revert hok
      simp only [create_order_impl, huid, haddr, hitems1, hcb, hnomatch,
        if_true, if_false, ite_not]
      repeat' split
      all_goals simp_all [exceptOk2]
  | true =>
      have hex : ∃ (items : List OrderItemC) (totals : Totals),
          create_order_impl db0 st p pi note true clr (some c) fresh now
            = finish_create db0 uid fresh addr items totals
                ("FAKE-" ++ pyTake fresh 8) note true (some c)
                "Simülasyon: Aras'a istek gönderilmedi." now clr
                (decide (fetch_cart_items db0 uid ≠ [])) := by
        refine ⟨enrich_items_from_products db0.catalog
            ((if fetch_cart_items db0 uid ≠ [] then fetch_cart_items db0 uid
              else pi).map coerce_item),
          calc_totals
            (enrich_items_from_products db0.catalog
              ((if fetch_cart_items db0 uid ≠ [] then fetch_cart_items db0 uid
                else pi).map coerce_item))
            (pyUpper (match enrich_items_from_products db0.catalog
                ((if fetch_cart_items db0 uid ≠ [] then fetch_cart_items db0 uid
                  else pi).map coerce_item) with
              | [] => "TRY"
              | i :: _ => i.currency)), ?_⟩
        simp only [create_order_impl, huid, haddr, hcb, hnomatch,
          if_true, if_false, ite_not]
        rw [ite_not] at hitems1
        rw [if_neg hitems1]
      obtain ⟨items1, totals1, heval⟩ := hex
      rw [heval] at haddr2 hitems2 ⊢
      obtain ⟨hfst, hord, _⟩ := finish_create_spec db0 uid fresh addr items1
        totals1 ("FAKE-" ++ pyTake fresh 8) note true (some c)
        "Simülasyon: Aras'a istek gönderilmedi." now clr
        (decide (fetch_cart_items db0 uid ≠ []))
      have hdocuid : (build_order_doc uid fresh addr items1 totals1
          ("FAKE-" ++ pyTake fresh 8) note true (some c)
          "Simülasyon: Aras'a istek gönderilmedi." now).user_id = uid := rfl
      have hdoccid : (build_order_doc uid fresh addr items1 totals1
          ("FAKE-" ++ pyTake fresh 8) note true (some c)
          "Simülasyon: Aras'a istek gönderilmedi." now).checkout_id
          = some c := by
        simp [build_order_doc, hcb]
      have hfind : (finish_create db0 uid fresh addr items1 totals1
            ("FAKE-" ++ pyTake fresh 8) note true (some c)
            "Simülasyon: Aras'a istek gönderilmedi." now clr
            (decide (fetch_cart_items db0 uid ≠ []))).2.1.orders.find?
            (fun e => e.2.user_id = uid ∧ e.2.checkout_id = some c)
          = some (fresh, build_order_doc uid fresh addr items1 totals1
              ("FAKE-" ++ pyTake fresh 8) note true (some c)
              "Simülasyon: Aras'a istek gönderilmedi." now) := by
        rw [hord, storeSet_append_of_fresh _ _ _ hfresh,
          find?_append_none _ _ _ hnomatch]
        rw [List.find?_cons_of_pos]
        simp [hdocuid, hdoccid]
      simp only [create_order_impl, huid2, haddr2, hcb, hfind,
        if_true, if_false, ite_not, hfst]
      rw [ite_not] at hitems2
      rw [if_neg hitems2]

/-- Witness for the amended C1: the retry carries the line item in the
request payload, so it reaches the idempotency lookup and gets the first
order back with the store unchanged. -/
theorem C1_idempotent_checkout_amended_witness :
    create_order_impl
        (create_order_impl dbC1 stTest (mkPrincipal "u1") [] none true true
          (some "co1") "ord00001" 5).2.1
        stTest (mkPrincipal "u1") [rawP1] none true true (some "co1")
        "ord00002" 6
      = ((create_order_impl dbC1 stTest (mkPrincipal "u1") [] none true true
            (some "co1") "ord00001" 5).1,
         (create_order_impl dbC1 stTest (mkPrincipal "u1") [] none true true
            (some "co1") "ord00001" 5).2.1,
         0) :=
  C1_idempotent_checkout_amended dbC1 stTest stTest (mkPrincipal "u1")
    (mkPrincipal "u1") [] [rawP1] none none true true true true "co1"
    "ord00001" "ord00002" 5 6 "u1"
    { blankAddr with city := some "İstanbul" }
    { blankAddr with city := some "İstanbul" }
    (by decide) (by decide) (by decide) (by decide) (by decide) (by decide)
    (by decide) (by decide) (by decide) (by decide)

/-! ### Claim C4 -/

/-- Claim C4 (evaluating the code at the failing input): every non-simulated
order creation that reaches the carrier step raises
`TypeError: unexpected keyword argument contents` — `aras_single_package`
forwards `contents=...` to the keyword-only `create_shipment_with_setorder`,
which does not accept it — so the request fails with a 500 before any
SetOrder request is composed; no order document is persisted (the collections
are returned unchanged and the carrier-call counter stays 0), but the
carrier message promised by the claim is never surfaced. -/
theorem C4_carrier_path_raises_before_setorder (dbS : DB) (st : Settings)
    (p : Principal) (pi : List RawItem) (note : Option String) (clr : Bool)
    (cid : Option String) (fresh : String) (now : Nat) (uid : String)
    (addr : Addr)
    (huid : extract_uid p = some uid)
    (haddr : resolve_active_address dbS p = some addr)
    (hitems : (if fetch_cart_items dbS uid ≠ [] then fetch_cart_items dbS uid
        else pi) ≠ [])
    (hidem : (if pyTruthyOS cid then
        dbS.orders.find? (fun e => e.2.user_id = uid ∧ e.2.checkout_id = cid)
      else none) = none)
    (henv : aras_env_ok st = true) :
    create_order_impl dbS st p pi note false clr cid fresh now
      = (.error (.typeError contentsTypeError), dbS, 0) := by
  simp only [create_order_impl, huid, haddr, ite_not]
  rw [ite_not] at hitems
  rw [if_neg hitems, hidem]
  simp [henv]

/-- Witness for C4: a concrete non-simulated checkout against a valid
environment fails with the TypeError and leaves the orders collection
unchanged. -/
theorem C4_carrier_path_raises_before_setorder_witness :
    create_order_impl dbC1 stTest (mkPrincipal "u1") [] none false true none
        "ord00001" 5
      = (.error (.typeError contentsTypeError), dbC1, 0) :=
  C4_carrier_path_raises_before_setorder dbC1 stTest (mkPrincipal "u1") []
    none true none "ord00001" 5 "u1" { blankAddr with city := some "İstanbul" }
    (by decide) (by decide) (by decide) (by decide) (by decide)

end ICSApp
